import Mathlib

/-!
# Verification of the shuttle TCP proxy / load balancer

A shallow embedding of the load-balancing, health-check, statistics and
registry code of the `shuttle` repository (Go), together with theorems
settling the specification claims about it.

Conventions of the embedding:
* Go `uint64` counters are modelled as `Nat` (the claims never exercise
  wrap-around at `2^64`), Go `int64` counters (`Conns`, `Active`) as `Int`.
* `time.Duration` fields are kept in milliseconds as `Nat`, the unit the
  configuration uses, so the `cfg * time.Millisecond` conversion and its
  inverse in `Stats`/`Config` are identities here.
* Mutex acquisition and goroutine scheduling are not modelled: every claim
  is about the sequential effect of one locked critical section, so each Go
  method becomes a pure state-passing function.
* A Go function that can panic (closing a closed channel, say) returns
  `Option`, `none` standing for the panic.
-/

/-- `BackendConfig` from the server code: the subset of backend fields
loaded and serialized for config. -/
structure BackendConfig where
  name : String
  addr : String
  check : String
  weight : Nat
  deriving DecidableEq, Repr

/-- `Backend` from the server code.  `stopCheck` is a channel in Go that is
only ever `close`d; we model it by the flag `stopClosed` (`true` once the
channel has been closed). -/
structure Backend where
  name : String
  addr : String
  check : String
  up : Bool
  weight : Nat
  sent : Nat
  rcvd : Nat
  errors : Nat
  conns : Int
  active : Int
  dialTimeout : Nat
  rwTimeout : Nat
  checkInterval : Nat
  rise : Nat
  riseCount : Nat
  fall : Nat
  fallCount : Nat
  stopClosed : Bool
  deriving DecidableEq, Repr

instance : Inhabited Backend :=
  ⟨⟨"", "", "", false, 0, 0, 0, 0, 0, 0, 0, 0, 0, 0, 0, 0, 0, false⟩⟩

/-- `NewBackend(cfg)`: all stats zero, `Up` false (Go zero values), the
stop channel freshly made (not closed). -/
def NewBackend (cfg : BackendConfig) : Backend :=
  { name := cfg.name
    addr := cfg.addr
    check := cfg.check
    up := false
    weight := cfg.weight
    sent := 0, rcvd := 0, errors := 0, conns := 0, active := 0
    dialTimeout := 0, rwTimeout := 0, checkInterval := 0
    rise := 0, riseCount := 0, fall := 0, fallCount := 0
    stopClosed := false }

/-- `Backend.Stop`: `close(b.stopCheck)`.  In Go, closing an already closed
channel panics; the panic is modelled by `none`. -/
def Backend.Stop (b : Backend) : Option Backend :=
  if b.stopClosed then none else some { b with stopClosed := true }

/-- The locked tail of `Backend.check()`: how one health-check outcome
(`up = true` for a successful TCP connect to the check address) updates the
rise/fall counters and the `Up` flag. -/
def Backend.applyCheck (b : Backend) (up : Bool) : Backend :=
  if up then
    let b := { b with fallCount := 0, riseCount := b.riseCount + 1 }
    if b.riseCount ≥ b.rise then { b with up := true } else b
  else
    let b := { b with riseCount := 0, fallCount := b.fallCount + 1 }
    if b.fallCount ≥ b.fall then { b with up := false } else b

/-- The health-check loop applied to a whole sequence of outcomes. -/
def runChecks (b : Backend) (os : List Bool) : Backend :=
  os.foldl Backend.applyCheck b

/-- Number of trailing elements of `l` equal to `v`: the length of the
current streak of successes (`v = true`) or failures (`v = false`) at the
end of a history of health-check outcomes. -/
def trailingCount (v : Bool) (l : List Bool) : Nat :=
  (l.reverse.takeWhile (· == v)).length

/-- The load-balancing policy the `switch cfg.Balance` in `NewService`
installs into the `next` function pointer. -/
inductive Policy where
  | rr
  | lc
  deriving DecidableEq, Repr

/-- `ServiceConfig` of the `main` package. -/
structure ServiceConfig where
  name : String
  addr : String
  backends : List BackendConfig
  balance : String
  checkInterval : Nat
  fall : Nat
  rise : Nat
  clientTimeout : Nat
  serverTimeout : Nat
  dialTimeout : Nat
  deriving DecidableEq, Repr

/-- `Service` from the server code.  `next` holds the installed balancing
policy (`none` when the `switch` fell through to the invalid-algorithm
branch and left the function pointer nil), `lastBackend`/`lastCount` are
the round-robin cursor and repeat counter. -/
structure Service where
  name : String
  addr : String
  backends : List Backend
  balance : String
  checkInterval : Nat
  fall : Nat
  rise : Nat
  clientTimeout : Nat
  serverTimeout : Nat
  dialTimeout : Nat
  sent : Nat
  rcvd : Nat
  errors : Nat
  next : Option Policy
  lastBackend : Nat
  lastCount : Nat
  deriving DecidableEq, Repr

/-- `Service.roundRobin`.  Returns the selected backend (`nil` = `none`)
together with the updated service state.  Go's `s.Backends[s.lastBackend]`
is modelled totally (via `getD`/`get?`); in every state the code reaches,
`lastBackend` is in range. -/
def Service.roundRobin (s : Service) : Option Backend × Service :=
  let count := s.backends.length
  if count = 0 then (none, s)
  else
    let lastCount := s.lastCount + 1
    if lastCount ≤ (s.backends.getD s.lastBackend default).weight then
      (s.backends.get? s.lastBackend, { s with lastCount := lastCount })
    else
      let lastBackend := (s.lastBackend + 1) % count
      (s.backends.get? lastBackend,
        { s with lastBackend := lastBackend, lastCount := 0 })

/-- The `for i, b := range s.Backends` loop of `Service.leastConn`, with
accumulator `(least, backend, s.lastBackend)` and `i` the index of the head
of the remaining list. -/
def lcLoop : List Backend → Nat → Int → Option Backend → Nat →
    Int × Option Backend × Nat
  | [], _, least, backend, lastB => (least, backend, lastB)
  | b :: rest, i, least, backend, lastB =>
    if b.active ≤ least then lcLoop rest (i + 1) b.active (some b) i
    else lcLoop rest (i + 1) least backend lastB

/-- `Service.leastConn`: scan all backends keeping the one whose `Active`
is `≤` the running minimum, the minimum starting at the sentinel `65536`;
`s.lastBackend` is updated to the index of the kept backend. -/
def Service.leastConn (s : Service) : Option Backend × Service :=
  if s.backends.length = 0 then (none, s)
  else
    let r := lcLoop s.backends 0 65536 none s.lastBackend
    (r.2.1, { s with lastBackend := r.2.2 })

/-- The replace-an-existing-backend loop of `Service.add`: `none` when no
backend of the same name is present. -/
def replaceBackend (backend : Backend) : List Backend → Option (List Backend)
  | [] => none
  | b :: rest =>
    if b.name = backend.name then some (backend :: rest)
    else (replaceBackend backend rest).map (b :: ·)

/-- `Service.add` (lowercase `add` in the source): load the service-level
timeouts and check interval into the backend, mark it up, and replace an
existing backend of the same name in place or append.  (`Stop`/`Start` of
the health-check goroutines do not change the fields modelled here.) -/
def Service.add (s : Service) (backend : Backend) : Service :=
  let backend :=
    { backend with
        up := true
        rwTimeout := s.serverTimeout
        dialTimeout := s.dialTimeout
        checkInterval := s.checkInterval }
  match replaceBackend backend s.backends with
  | some bs => { s with backends := bs }
  | none => { s with backends := s.backends ++ [backend] }

/-- `NewService(cfg)` from the `main` package: copy the config, default
`CheckInterval`, `Rise` and `Fall` when zero, add the configured backends,
and install the balancing policy (`""`/`"RR"` → round robin, `"LC"` →
least-connected, anything else only logs and leaves `next` nil).  Note the
source does not copy `cfg.Balance` into the `Balance` field. -/
def NewService (cfg : ServiceConfig) : Service :=
  let s : Service :=
    { name := cfg.name
      addr := cfg.addr
      backends := []
      balance := ""
      checkInterval := cfg.checkInterval
      fall := cfg.fall
      rise := cfg.rise
      clientTimeout := cfg.clientTimeout
      serverTimeout := cfg.serverTimeout
      dialTimeout := cfg.dialTimeout
      sent := 0, rcvd := 0, errors := 0
      next := none, lastBackend := 0, lastCount := 0 }
  let s := if s.checkInterval = 0 then { s with checkInterval := 2 } else s
  let s := if s.rise = 0 then { s with rise := 2 } else s
  let s := if s.fall = 0 then { s with fall := 2 } else s
  let s := cfg.backends.foldl (fun s b => s.add (NewBackend b)) s
  match cfg.balance with
  | "" => { s with next := some .rr }
  | "RR" => { s with next := some .rr }
  | "LC" => { s with next := some .lc }
  | _ => s

/-- The round-robin reference algorithm, transcribed from the spec's words:
maintain a `(cursor, repeat)` pair (`lastBackend`/`lastCount` here); on
each call, if `repeat < backends[cursor].weight`, emit `backends[cursor]`
and increment `repeat`; else advance `cursor = (cursor+1) mod n`, reset
`repeat = 0`, and emit the new `backends[cursor]`.  On an empty backend
list there is no `backends[cursor]` to emit; like the implementation, the
reference emits `none` and leaves the state unchanged. -/
def Service.rrSpec (s : Service) : Option Backend × Service :=
  let n := s.backends.length
  if n = 0 then (none, s)
  else
    if s.lastCount < (s.backends.getD s.lastBackend default).weight then
      (s.backends.get? s.lastBackend, { s with lastCount := s.lastCount + 1 })
    else
      let cursor := (s.lastBackend + 1) % n
      (s.backends.get? cursor, { s with lastBackend := cursor, lastCount := 0 })

/-- The sequence of the first `k` selections of the implemented round
robin, starting from state `s`. -/
def rrTrace (s : Service) : Nat → List (Option Backend)
  | 0 => []
  | k + 1 =>
    let r := s.roundRobin
    r.1 :: rrTrace r.2 k

/-- The sequence of the first `k` selections of the reference round-robin
algorithm, starting from state `s`. -/
def rrSpecTrace (s : Service) : Nat → List (Option Backend)
  | 0 => []
  | k + 1 =>
    let r := s.rrSpec
    r.1 :: rrSpecTrace r.2 k

/-- One invocation of `Backend.Proxy`, abstracted over what the network
does: whether the dial succeeds, how many bytes each `broker` copies, and
which of the copy/close/`CloseRead` calls fail. -/
structure ProxySession where
  dialOk : Bool
  bytesFromClient : Nat
  bytesFromBackend : Nat
  clientCopyErr : Bool
  clientCloseErr : Bool
  backendCopyErr : Bool
  backendCloseErr : Bool
  closeReadErr : Bool
  deriving DecidableEq, Repr

/-- The error increments the two `broker` goroutines and the `CloseRead`
call contribute on the successful-dial path. -/
def ProxySession.brokerErrors (sess : ProxySession) : Nat :=
  (if sess.clientCopyErr then 1 else 0) + (if sess.clientCloseErr then 1 else 0)
    + (if sess.backendCopyErr then 1 else 0)
    + (if sess.backendCloseErr then 1 else 0)
    + (if sess.closeReadErr then 1 else 0)

/-- `Backend.Proxy(conn)`: on dial failure, close the client connection,
count an error and return; on success count the connection, run both
brokers to completion (each broker closes its source, so both connections
end closed — the second component), and decrement `active` on exit.
Returns the backend counters after the call and whether the client
connection was closed. -/
def Backend.Proxy (b : Backend) (sess : ProxySession) : Backend × Bool :=
  if !sess.dialOk then
    ({ b with errors := b.errors + 1 }, true)
  else
    let b := { b with conns := b.conns + 1, active := b.active + 1 }
    let b :=
      { b with
          sent := b.sent + sess.bytesFromClient
          rcvd := b.rcvd + sess.bytesFromBackend
          errors := b.errors + sess.brokerErrors }
    ({ b with active := b.active - 1 }, true)

/-- `BackendStat`: the json stats returned for a backend. -/
structure BackendStat where
  name : String
  addr : String
  check : String
  up : Bool
  weight : Nat
  sent : Nat
  rcvd : Nat
  errors : Nat
  conns : Int
  active : Int
  deriving DecidableEq, Repr

/-- `Backend.Stats()`: copy the backend state into a `BackendStat`. -/
def Backend.Stats (b : Backend) : BackendStat :=
  { name := b.name
    addr := b.addr
    check := b.check
    up := b.up
    weight := b.weight
    sent := b.sent
    rcvd := b.rcvd
    errors := b.errors
    conns := b.conns
    active := b.active }

/-- `ServiceStat`: the stats returned about a service. -/
structure ServiceStat where
  name : String
  addr : String
  backends : List BackendStat
  balance : String
  checkInterval : Nat
  fall : Nat
  rise : Nat
  clientTimeout : Nat
  serverTimeout : Nat
  dialTimeout : Nat
  sent : Nat
  rcvd : Nat
  errors : Nat
  conns : Int
  active : Int
  deriving DecidableEq, Repr

/-- The body of the `for _, b := range s.Backends` loop of
`Service.Stats()`: append the backend's stat and accumulate the five
counter sums. -/
def statsStep (stats : ServiceStat) (b : Backend) : ServiceStat :=
  { stats with
      backends := stats.backends ++ [b.Stats]
      sent := stats.sent + b.sent
      rcvd := stats.rcvd + b.rcvd
      errors := stats.errors + b.errors
      conns := stats.conns + b.conns
      active := stats.active + b.active }

/-- `Service.Stats()`: the header fields are copied, then one pass over
`s.Backends` runs `statsStep` (the counter sums start from the struct
literal's zero values, not from the service's own `Sent`/`Rcvd`/`Errors`
fields). -/
def Service.Stats (s : Service) : ServiceStat :=
  let stats : ServiceStat :=
    { name := s.name
      addr := s.addr
      backends := []
      balance := s.balance
      checkInterval := s.checkInterval
      fall := s.fall
      rise := s.rise
      clientTimeout := s.clientTimeout
      serverTimeout := s.serverTimeout
      dialTimeout := s.dialTimeout
      sent := 0, rcvd := 0, errors := 0, conns := 0, active := 0 }
  s.backends.foldl statsStep stats

/-- The `client` package's `ServiceConfig`, restricted to the fields its
`SetDefaults` touches. -/
structure ClientServiceConfig where
  name : String
  addr : String
  network : String
  balance : String
  checkInterval : Nat
  fall : Nat
  rise : Nat
  deriving DecidableEq, Repr

/-- The `client` package's defaults. -/
def DefaultCheckInterval : Nat := 5000

/-- `client.ServiceConfig.SetDefaults`: a copy with any unset field set to
its default value (`DefaultBalance = "RR"`, `DefaultCheckInterval = 5000`,
`DefaultRise = DefaultFall = 2`, `DefaultNet = "tcp"`). -/
def ClientServiceConfig.SetDefaults (s : ClientServiceConfig) : ClientServiceConfig :=
  let s := if s.balance = "" then { s with balance := "RR" } else s
  let s := if s.checkInterval = 0 then { s with checkInterval := DefaultCheckInterval } else s
  let s := if s.rise = 0 then { s with rise := 2 } else s
  let s := if s.fall = 0 then { s with fall := 2 } else s
  if s.network = "" then { s with network := "tcp" } else s

/-- The service registry: a finite map from service name to service,
modelled as an association list (first binding wins on lookup). -/
structure ServiceRegistry where
  svcs : List (String × Service)
  deriving DecidableEq, Repr

/-- Modelled from the spec: `ServiceRegistry.AddService(cfg)`.  The
duplicate-checking registry method is not present under `src/` (only its
tests and callers are, e.g. `shuttle_test.go`'s
"Make sure we can't add it through AddService"); the spec says
`AddService(cfg)` fails if `services[cfg.name]` already exists, and that
configuration errors are reported synchronously to the caller with the
model unchanged.  The result pairs the synchronously returned error (if
any) with the registry state after the call. -/
def ServiceRegistry.AddService (r : ServiceRegistry) (cfg : ServiceConfig) :
    Option String × ServiceRegistry :=
  if (r.svcs.lookup cfg.name).isSome then
    (some "service already exists", r)
  else
    (none, { svcs := (cfg.name, NewService cfg) :: r.svcs })

/-! ## Helper lemmas -/

/-- The implemented round-robin step and the spec's reference step agree on
every state: the implementation's post-increment test `lastCount+1 ≤ w` is
the reference's pre-increment test `repeat < w`. -/
lemma roundRobin_eq_rrSpec (s : Service) : s.roundRobin = s.rrSpec := rfl

/-- Appending one outcome to a check history applies one more check. -/
lemma runChecks_append (b : Backend) (os : List Bool) (o : Bool) :
    runChecks b (os ++ [o]) = (runChecks b os).applyCheck o := by
  simp [runChecks, List.foldl_append]

/-- One health check never changes the configured thresholds. -/
lemma applyCheck_rise_fall (b : Backend) (o : Bool) :
    (b.applyCheck o).rise = b.rise ∧ (b.applyCheck o).fall = b.fall := by
  unfold Backend.applyCheck
  cases o <;> dsimp <;> split <;> simp

/-- A whole check history never changes the configured thresholds. -/
lemma runChecks_rise_fall (b : Backend) (os : List Bool) :
    (runChecks b os).rise = b.rise ∧ (runChecks b os).fall = b.fall := by
  induction os generalizing b with
  | nil => exact ⟨rfl, rfl⟩
  | cons o os ih =>
    have h := applyCheck_rise_fall b o
    simpa [runChecks] using (h.1 ▸ h.2 ▸ ih (b.applyCheck o))

lemma trailingCount_append (v : Bool) (l : List Bool) (o : Bool) :
    trailingCount v (l ++ [o]) =
      if o = v then trailingCount v l + 1 else 0 := by
  by_cases h : o = v <;> simp [trailingCount, h]

/-- After a fresh start, `riseCount` is the length of the current success
streak and `fallCount` the length of the current failure streak. -/
lemma runChecks_counts (b : Backend) (h1 : b.riseCount = 0)
    (h2 : b.fallCount = 0) (os : List Bool) :
    (runChecks b os).riseCount = trailingCount true os
      ∧ (runChecks b os).fallCount = trailingCount false os := by
  induction os using List.reverseRecOn with
  | nil => simpa [runChecks, trailingCount] using ⟨h1, h2⟩
  | append_singleton os o ih =>
    rw [runChecks_append]
    cases o <;>
      simp [Backend.applyCheck, trailingCount_append, ih.1, ih.2] <;> split <;> simp

/-- Reading off the `up` flag after one more successful check. -/
lemma applyCheck_true_up (b : Backend) :
    (b.applyCheck true).up = (if b.rise ≤ b.riseCount + 1 then true else b.up) := by
  unfold Backend.applyCheck
  by_cases h : b.rise ≤ b.riseCount + 1 <;> simp [h]

/-- Reading off the `up` flag after one more failed check. -/
lemma applyCheck_false_up (b : Backend) :
    (b.applyCheck false).up = (if b.fall ≤ b.fallCount + 1 then false else b.up) := by
  unfold Backend.applyCheck
  by_cases h : b.fall ≤ b.fallCount + 1 <;> simp [h]

/-- If every remaining backend's `Active` is strictly above the running
minimum, the scan changes nothing. -/
lemma lcLoop_noUpdate (l : List Backend) : ∀ (i : Nat) (least : Int)
    (cur : Option Backend) (lastB : Nat), (∀ b ∈ l, least < b.active) →
    lcLoop l i least cur lastB = (least, cur, lastB) := by
  induction l with
  | nil => intro i least cur lastB _; rfl
  | cons b rest ih =>
    intro i least cur lastB h
    have hb : ¬ b.active ≤ least := not_le.mpr (h b (List.mem_cons_self b rest))
    rw [lcLoop, if_neg hb]
    exact ih (i + 1) least cur lastB fun b' hb' => h b' (List.mem_cons_of_mem _ hb')

/-- If some remaining backend's `Active` is at or below the running
minimum, the scan ends on the last backend attaining the minimum: it is a
member of the list, its `Active` is minimal, and every backend after it is
strictly above it. -/
lemma lcLoop_found (l : List Backend) : ∀ (i : Nat) (least : Int)
    (cur : Option Backend) (lastB : Nat), (∃ b ∈ l, b.active ≤ least) →
    ∃ b l₁ l₂, (lcLoop l i least cur lastB).2.1 = some b ∧ l = l₁ ++ b :: l₂
      ∧ b.active ≤ least ∧ (∀ b' ∈ l, b.active ≤ b'.active)
      ∧ ∀ b' ∈ l₂, b.active < b'.active := by
  induction l with
  | nil => intro i least cur lastB h; simp at h
  | cons b rest ih =>
    intro i least cur lastB h
    by_cases hb : b.active ≤ least
    · rw [lcLoop, if_pos hb]
      by_cases hrest : ∃ c ∈ rest, c.active ≤ b.active
      · obtain ⟨c, l₁, l₂, h1, h2, h3, h4, h5⟩ := ih (i + 1) b.active (some b) i hrest
        refine ⟨c, b :: l₁, l₂, h1, by rw [h2]; rfl, le_trans h3 hb, ?_, h5⟩
        intro b' hb'
        rcases List.mem_cons.mp hb' with rfl | hm
        · exact h3
        · exact h4 b' hm
      · push_neg at hrest
        rw [lcLoop_noUpdate rest (i + 1) b.active (some b) i hrest]
        refine ⟨b, [], rest, rfl, rfl, hb, ?_, hrest⟩
        intro b' hb'
        rcases List.mem_cons.mp hb' with rfl | hm
        · exact le_refl _
        · exact le_of_lt (hrest b' hm)
    · rw [lcLoop, if_neg hb]
      have hrest : ∃ c ∈ rest, c.active ≤ least := by
        obtain ⟨w, hw, hwle⟩ := h
        rcases List.mem_cons.mp hw with rfl | hm
        · exact absurd hwle hb
        · exact ⟨w, hm, hwle⟩
      obtain ⟨c, l₁, l₂, h1, h2, h3, h4, h5⟩ := ih (i + 1) least cur lastB hrest
      refine ⟨c, b :: l₁, l₂, h1, by rw [h2]; rfl, h3, ?_, h5⟩
      intro b' hb'
      rcases List.mem_cons.mp hb' with rfl | hm
      · exact le_of_lt (lt_of_le_of_lt h3 (not_le.mp hb))
      · exact h4 b' hm

/-- Unrolling the `Service.Stats` accumulation loop: the backend stats are
appended in list order and each counter is the accumulator plus the sum
over the remaining backends. -/
lemma foldl_statsStep (l : List Backend) : ∀ (st : ServiceStat),
    (l.foldl statsStep st).backends = st.backends ++ l.map Backend.Stats
    ∧ (l.foldl statsStep st).sent = st.sent + (l.map Backend.sent).sum
    ∧ (l.foldl statsStep st).rcvd = st.rcvd + (l.map Backend.rcvd).sum
    ∧ (l.foldl statsStep st).errors = st.errors + (l.map Backend.errors).sum
    ∧ (l.foldl statsStep st).conns = st.conns + (l.map Backend.conns).sum
    ∧ (l.foldl statsStep st).active = st.active + (l.map Backend.active).sum := by
  induction l with
  | nil => intro st; simp
  | cons b rest ih =>
    intro st
    obtain ⟨h1, h2, h3, h4, h5, h6⟩ := ih (statsStep st b)
    simp only [List.foldl_cons, List.map_cons, List.sum_cons]
    refine ⟨?_, ?_, ?_, ?_, ?_, ?_⟩
    · rw [h1]; simp [statsStep]
    · rw [h2]; simp [statsStep]; omega
    · rw [h3]; simp [statsStep]; omega
    · rw [h4]; simp [statsStep]; omega
    · rw [h5]; simp [statsStep]; omega
    · rw [h6]; simp [statsStep]; omega

/-- A successful check zeroes the fall counter in both branches. -/
lemma applyCheck_true_fallCount (b : Backend) : (b.applyCheck true).fallCount = 0 := by
  unfold Backend.applyCheck
  split
  · dsimp only
    split <;> rfl
  · simp_all

/-- A failed check zeroes the rise counter in both branches. -/
lemma applyCheck_false_riseCount (b : Backend) : (b.applyCheck false).riseCount = 0 := by
  unfold Backend.applyCheck
  split
  · simp_all
  · dsimp only
    split <;> rfl

/-! ## Claims -/

/-- Round-robin fixture for C1: three backends of weights 1, 2 and 3
(the configuration of `TestWeightedRoundRobin`), built through
`NewService`. -/
def c1cfg : ServiceConfig :=
  { name := "testService", addr := "127.0.0.1:9000"
    backends :=
      [⟨"backend_0", "a0", "", 1⟩, ⟨"backend_1", "a1", "", 2⟩,
        ⟨"backend_2", "a2", "", 3⟩]
    balance := "RR", checkInterval := 0, fall := 0, rise := 0
    clientTimeout := 0, serverTimeout := 0, dialTimeout := 0 }

/-- **C1** (code bug).  The claim says that in any window of `Σwᵢ`
consecutive selections each backend `i` is selected exactly `wᵢ` times.
With weights `[1,2,3]` (so `Σwᵢ = 6`), the first six selections of the
implemented round robin are `b0,b1,b1,b1,b2,b2`: `backend_1` is selected
three times, not its weight 2.  (After each cursor advance the code emits
`Weight+1` selections in a row, contradicting its own comment and
`TestWeightedRoundRobin`, which expects `backend_2` on the 4th
selection.) -/
theorem rr_window_counts_bug :
    ((rrTrace (NewService c1cfg) 6).map (Option.map Backend.name))
      = [some "backend_0", some "backend_1", some "backend_1",
         some "backend_1", some "backend_2", some "backend_2"]
    ∧ ((rrTrace (NewService c1cfg) 6).map (Option.map Backend.name)).count
        (some "backend_1") = 3
    ∧ (NewService c1cfg).backends.map Backend.weight = [1, 2, 3] := by
  decide

/-- Least-conn fixture: a backend whose `Active` exceeds the loop's
initial sentinel `65536`. -/
def c2over : Backend := { (default : Backend) with name := "busy", active := 65537 }

/-- A least-connected service whose only backend has `Active = 65537`. -/
def c2svc : Service :=
  { name := "lc", addr := "", backends := [c2over], balance := "LC"
    checkInterval := 2, fall := 2, rise := 2
    clientTimeout := 0, serverTimeout := 0, dialTimeout := 0
    sent := 0, rcvd := 0, errors := 0
    next := some Policy.lc, lastBackend := 0, lastCount := 0 }

/-- **C2 counterexample**: the claim promises a non-nil backend for every
non-empty backend list, but when every backend's `Active` exceeds the
initial `least = 65536` sentinel the scan never takes a backend and
`leastConn` returns nil. -/
theorem leastConn_sentinel_cex :
    c2svc.backends ≠ [] ∧ (Service.leastConn c2svc).1 = none := by
  decide

/-- **C2** (corrected).  Whenever at least one backend has
`Active ≤ 65536` (in particular in any state the claim intends, where
active counts are small), `leastConn` returns a backend of the list whose
`Active` is minimal, and among backends of equal minimal `Active` it is
the latest-inserted one: every backend after it in insertion order is
strictly more active. -/
theorem leastConn_min (s : Service)
    (h : ∃ b ∈ s.backends, b.active ≤ 65536) :
    ∃ b l₁ l₂, (s.leastConn).1 = some b ∧ s.backends = l₁ ++ b :: l₂
      ∧ (∀ c ∈ s.backends, b.active ≤ c.active)
      ∧ ∀ c ∈ l₂, b.active < c.active := by
  have hne : ¬ s.backends.length = 0 := by
    obtain ⟨w, hw, _⟩ := h
    exact Nat.pos_iff_ne_zero.mp (List.length_pos.mpr (List.ne_nil_of_mem hw))
  unfold Service.leastConn
  rw [if_neg hne]
  obtain ⟨c, l₁, l₂, h1, h2, _, h4, h5⟩ :=
    lcLoop_found s.backends 0 65536 none s.lastBackend h
  exact ⟨c, l₁, l₂, h1, h2, h4, h5⟩

/-- Two equally loaded backends; the tie must go to the later one. -/
def c2old : Backend := { (default : Backend) with name := "old", active := 3 }

/-- The later-inserted of the two equally loaded backends. -/
def c2new : Backend := { (default : Backend) with name := "new", active := 3 }

/-- A least-connected service with backends `[old, new]`, both `Active = 3`. -/
def c2svc2 : Service :=
  { name := "lc2", addr := "", backends := [c2old, c2new], balance := "LC"
    checkInterval := 2, fall := 2, rise := 2
    clientTimeout := 0, serverTimeout := 0, dialTimeout := 0
    sent := 0, rcvd := 0, errors := 0
    next := some Policy.lc, lastBackend := 0, lastCount := 0 }

/-- Witness for C2: on `[old, new]` with equal `Active` the hypothesis
holds and the selected backend is the later-inserted `new`. -/
theorem leastConn_min_witness :
    (Service.leastConn c2svc2).1 = some c2new
    ∧ ∃ b l₁ l₂, (Service.leastConn c2svc2).1 = some b
        ∧ c2svc2.backends = l₁ ++ b :: l₂
        ∧ (∀ c ∈ c2svc2.backends, b.active ≤ c.active)
        ∧ ∀ c ∈ l₂, b.active < c.active :=
  ⟨by decide, leastConn_min c2svc2 ⟨c2old, by decide, by decide⟩⟩

/-- **C3** (confirmed).  Over any health-check history from a fresh
counter state, `Up` flips false→true only on a successful check and only
when the trailing streak of successes has reached `rise`, and flips
true→false only on a failed check and only when the trailing streak of
failures has reached `fall`; moreover every success zeroes the fall
counter and every failure zeroes the rise counter. -/
theorem health_rise_fall (b : Backend) (h1 : b.riseCount = 0)
    (h2 : b.fallCount = 0) (os : List Bool) (o : Bool) :
    ((runChecks b os).up = false → (runChecks b (os ++ [o])).up = true →
      o = true ∧ b.rise ≤ trailingCount true (os ++ [o]))
    ∧ ((runChecks b os).up = true → (runChecks b (os ++ [o])).up = false →
      o = false ∧ b.fall ≤ trailingCount false (os ++ [o]))
    ∧ (runChecks b (os ++ [true])).fallCount = 0
    ∧ (runChecks b (os ++ [false])).riseCount = 0 := by
  have hc := runChecks_counts b h1 h2 os
  have hrf := runChecks_rise_fall b os
  refine ⟨?_, ?_, ?_, ?_⟩
  · intro hdown hup
    rw [runChecks_append] at hup
    cases o with
    | false =>
      rw [applyCheck_false_up, hdown] at hup
      split at hup <;> simp at hup
    | true =>
      refine ⟨rfl, ?_⟩
      rw [applyCheck_true_up, hdown] at hup
      split at hup
      case isTrue h =>
        rw [hrf.1, hc.1] at h
        rw [trailingCount_append]
        simpa using h
      case isFalse => simp at hup
  · intro hupState hdown
    rw [runChecks_append] at hdown
    cases o with
    | true =>
      rw [applyCheck_true_up, hupState] at hdown
      split at hdown <;> simp at hdown
    | false =>
      refine ⟨rfl, ?_⟩
      rw [applyCheck_false_up, hupState] at hdown
      split at hdown
      case isTrue h =>
        rw [hrf.2, hc.2] at h
        rw [trailingCount_append]
        simpa using h
      case isFalse => simp at hdown
  · rw [runChecks_append]
    exact applyCheck_true_fallCount _
  · rw [runChecks_append]
    exact applyCheck_false_riseCount _

/-- Health-check fixture: a fresh down backend with `rise = fall = 2`. -/
def c3b : Backend := { (default : Backend) with rise := 2, fall := 2 }

/-- Witness for C3: with `rise = 2` the backend is still down after one
success and comes up on the second, at which point the trailing success
streak is indeed ≥ 2. -/
theorem health_rise_fall_witness :
    c3b.riseCount = 0 ∧ c3b.fallCount = 0
    ∧ (runChecks c3b [true]).up = false
    ∧ (runChecks c3b [true, true]).up = true
    ∧ 2 ≤ trailingCount true ([true] ++ [true]) :=
  ⟨rfl, rfl, by decide, by decide,
    ((health_rise_fall c3b rfl rfl [true] true).1 (by decide) (by decide)).2⟩

/-- **C4** (confirmed, modelled from the spec).  When a service of the
same name is already registered, `AddService` reports an error
synchronously and the registry is exactly what it was: the existing
service is neither replaced nor stopped. -/
theorem addService_duplicate (r : ServiceRegistry) (cfg : ServiceConfig)
    (h : (r.svcs.lookup cfg.name).isSome = true) :
    (r.AddService cfg).1.isSome = true ∧ (r.AddService cfg).2 = r := by
  unfold ServiceRegistry.AddService
  rw [if_pos h]
  exact ⟨rfl, rfl⟩

/-- Registry fixture for C4: config named `web`. -/
def c4cfg : ServiceConfig :=
  { name := "web", addr := "127.0.0.1:9000", backends := [], balance := ""
    checkInterval := 0, fall := 0, rise := 0
    clientTimeout := 0, serverTimeout := 0, dialTimeout := 0 }

/-- A registry already holding a service named `web`. -/
def c4reg : ServiceRegistry := ⟨[("web", NewService c4cfg)]⟩

/-- Witness for C4: adding `web` to a registry that has `web` errors and
leaves the registry untouched. -/
theorem addService_duplicate_witness :
    (c4reg.svcs.lookup c4cfg.name).isSome = true
    ∧ (c4reg.AddService c4cfg).1.isSome = true
    ∧ (c4reg.AddService c4cfg).2 = c4reg :=
  ⟨by decide, addService_duplicate c4reg c4cfg (by decide)⟩

/-- Backend-config fixture for C5. -/
def c5cfg : BackendConfig := ⟨"b1", "127.0.0.1:1000", "", 1⟩

/-- The C5 backend after its first `Stop`: the stop channel is closed. -/
def c5stopped : Backend := { NewBackend c5cfg with stopClosed := true }

/-- **C5 counterexample**: the claim says a second `stop()` is a no-op
that neither fails nor panics, but on a freshly built backend the second
`Stop` closes an already closed channel and panics (`none`), so it is not
a no-op returning the same state. -/
theorem stop_twice_cex :
    Backend.Stop (NewBackend c5cfg) = some c5stopped
    ∧ Backend.Stop c5stopped = none
    ∧ Backend.Stop c5stopped ≠ some c5stopped := by
  decide

/-- **C5** (corrected).  The first `stop()` on a backend closes the
health-check stop channel; a second `stop()` panics (close of a closed
channel) instead of being an idempotent no-op. -/
theorem stop_not_idempotent (b : Backend) (h : b.stopClosed = false) :
    b.Stop = some { b with stopClosed := true }
    ∧ Backend.Stop { b with stopClosed := true } = none := by
  unfold Backend.Stop
  rw [h]
  exact ⟨rfl, rfl⟩

/-- Witness for C5: instantiated on the freshly built backend. -/
theorem stop_not_idempotent_witness :
    (NewBackend c5cfg).stopClosed = false
    ∧ (NewBackend c5cfg).Stop = some { NewBackend c5cfg with stopClosed := true }
    ∧ Backend.Stop { NewBackend c5cfg with stopClosed := true } = none :=
  ⟨rfl, stop_not_idempotent (NewBackend c5cfg) rfl⟩

/-- Defaults fixture for C6: empty balance, zero check interval, rise and
fall. -/
def c6cfg : ServiceConfig :=
  { name := "svc", addr := "127.0.0.1:9000", backends := [], balance := ""
    checkInterval := 0, fall := 0, rise := 0
    clientTimeout := 0, serverTimeout := 0, dialTimeout := 0 }

/-- The same all-unset configuration as the `client` package sees it. -/
def c6client : ClientServiceConfig :=
  { name := "svc", addr := "127.0.0.1:9000", network := "", balance := ""
    checkInterval := 0, fall := 0, rise := 0 }

/-- **C6** (code bug).  On a config with empty balance and zero
check interval, rise and fall, `NewService` installs round robin and
defaults rise and fall to 2 as claimed, but it defaults `CheckInterval` to
`2` milliseconds, while the repository's own `client` package documents and
implements the default check interval as `DefaultCheckInterval = 5000`
(and its `SetDefaults` also sets balance `"RR"`, rise 2, fall 2). -/
theorem newService_defaults_bug :
    (NewService c6cfg).next = some Policy.rr
    ∧ (NewService c6cfg).rise = 2
    ∧ (NewService c6cfg).fall = 2
    ∧ (NewService c6cfg).checkInterval = 2
    ∧ c6client.SetDefaults.checkInterval = DefaultCheckInterval
    ∧ c6client.SetDefaults.balance = "RR"
    ∧ c6client.SetDefaults.rise = 2
    ∧ c6client.SetDefaults.fall = 2
    ∧ (NewService c6cfg).checkInterval ≠ DefaultCheckInterval := by
  decide

/-- Proxy fixture for C7: a backend with some traffic already counted. -/
def c7b : Backend :=
  { (default : Backend) with name := "b", conns := 5, active := 2, errors := 1 }

/-- A proxy invocation whose dial fails. -/
def c7failSess : ProxySession :=
  { dialOk := false, bytesFromClient := 0, bytesFromBackend := 0
    clientCopyErr := false, clientCloseErr := false
    backendCopyErr := false, backendCloseErr := false, closeReadErr := false }

/-- **C7 counterexample**: the claim says `conns` is incremented on entry
of every `Proxy` invocation, but on a dial failure the call returns with
`conns` unchanged (the increments only happen after a successful dial). -/
theorem proxy_dialfail_cex :
    (Backend.Proxy c7b c7failSess).1.conns = c7b.conns
    ∧ (Backend.Proxy c7b c7failSess).1.conns ≠ c7b.conns + 1
    ∧ (Backend.Proxy c7b c7failSess).1.errors = c7b.errors + 1
    ∧ (Backend.Proxy c7b c7failSess).2 = true := by
  decide

/-- **C7** (corrected).  `conns` is incremented exactly when the dial
succeeds; `active` is net unchanged by a completed call (incremented after
a successful dial, decremented on exit); the client connection is always
closed by the end; on dial failure the only change is `errors + 1`; and on
success the byte counters grow by the brokered byte counts and `errors` by
the failed copy/close operations. -/
theorem proxy_counters (b : Backend) (sess : ProxySession) :
    (b.Proxy sess).1.conns = b.conns + (if sess.dialOk then 1 else 0)
    ∧ (b.Proxy sess).1.active = b.active
    ∧ (b.Proxy sess).2 = true
    ∧ (sess.dialOk = false →
        (b.Proxy sess).1 = { b with errors := b.errors + 1 })
    ∧ (sess.dialOk = true →
        (b.Proxy sess).1.sent = b.sent + sess.bytesFromClient
        ∧ (b.Proxy sess).1.rcvd = b.rcvd + sess.bytesFromBackend
        ∧ (b.Proxy sess).1.errors = b.errors + sess.brokerErrors) := by
  unfold Backend.Proxy
  cases h : sess.dialOk <;> simp [h]

/-- Witness for C7: the dial-failure invocation on the traffic-carrying
backend. -/
theorem proxy_counters_witness :
    c7failSess.dialOk = false
    ∧ ((Backend.Proxy c7b c7failSess).1.conns
        = c7b.conns + (if c7failSess.dialOk then 1 else 0)
      ∧ (Backend.Proxy c7b c7failSess).1.active = c7b.active
      ∧ (Backend.Proxy c7b c7failSess).2 = true
      ∧ (c7failSess.dialOk = false →
          (Backend.Proxy c7b c7failSess).1 = { c7b with errors := c7b.errors + 1 })
      ∧ (c7failSess.dialOk = true →
          (Backend.Proxy c7b c7failSess).1.sent
            = c7b.sent + c7failSess.bytesFromClient
          ∧ (Backend.Proxy c7b c7failSess).1.rcvd
            = c7b.rcvd + c7failSess.bytesFromBackend
          ∧ (Backend.Proxy c7b c7failSess).1.errors
            = c7b.errors + c7failSess.brokerErrors)) :=
  ⟨rfl, proxy_counters c7b c7failSess⟩

/-- **C8** (confirmed).  The implemented round robin and the spec's
reference `(cursor, repeat)` algorithm produce the same selection sequence
from every state, for every backend list and every number of calls. -/
theorem rr_trace_eq_spec (s : Service) (k : Nat) :
    rrTrace s k = rrSpecTrace s k := by
  induction k generalizing s with
  | zero => rfl
  | succ k ih =>
    simp only [rrTrace, rrSpecTrace, roundRobin_eq_rrSpec]
    exact congrArg _ (ih _)

/-- Empty-service fixture for C9. -/
def c9svc : Service :=
  { name := "empty", addr := "", backends := [], balance := ""
    checkInterval := 2, fall := 2, rise := 2
    clientTimeout := 0, serverTimeout := 0, dialTimeout := 0
    sent := 0, rcvd := 0, errors := 0
    next := some Policy.rr, lastBackend := 0, lastCount := 0 }

/-- **C9** (confirmed).  On an empty backend list both selection functions
return nil and leave the whole service state — in particular the
`lastBackend`/`lastCount` cursor — untouched, so later selections after
backends are added are unaffected. -/
theorem empty_backends_nil (s : Service) (h : s.backends = []) :
    s.roundRobin = (none, s) ∧ s.leastConn = (none, s) := by
  constructor
  · unfold Service.roundRobin
    simp [h]
  · unfold Service.leastConn
    simp [h]

/-- Witness for C9: the concrete empty service. -/
theorem empty_backends_nil_witness :
    c9svc.backends = []
    ∧ c9svc.roundRobin = (none, c9svc) ∧ c9svc.leastConn = (none, c9svc) :=
  ⟨rfl, empty_backends_nil c9svc rfl⟩

/-- **C10** (confirmed).  A `Service.Stats` snapshot lists the backend
stats in the service's backend (insertion) order, and its `Sent`, `Rcvd`,
`Errors`, `Conns` and `Active` fields are exactly the sums of the
corresponding fields of the per-backend stats of the same snapshot. -/
theorem stats_totals (s : Service) :
    (s.Stats).backends = s.backends.map Backend.Stats
    ∧ (s.Stats).sent = ((s.Stats).backends.map BackendStat.sent).sum
    ∧ (s.Stats).rcvd = ((s.Stats).backends.map BackendStat.rcvd).sum
    ∧ (s.Stats).errors = ((s.Stats).backends.map BackendStat.errors).sum
    ∧ (s.Stats).conns = ((s.Stats).backends.map BackendStat.conns).sum
    ∧ (s.Stats).active = ((s.Stats).backends.map BackendStat.active).sum := by
  obtain ⟨h1, h2, h3, h4, h5, h6⟩ :=
    foldl_statsStep s.backends
      { name := s.name
        addr := s.addr
        backends := []
        balance := s.balance
        checkInterval := s.checkInterval
        fall := s.fall
        rise := s.rise
        clientTimeout := s.clientTimeout
        serverTimeout := s.serverTimeout
        dialTimeout := s.dialTimeout
        sent := 0, rcvd := 0, errors := 0, conns := 0, active := 0 }
  have hb : (s.Stats).backends = s.backends.map Backend.Stats := by
    rw [Service.Stats]
    simpa using h1
  refine ⟨hb, ?_, ?_, ?_, ?_, ?_⟩ <;> rw [hb, List.map_map, Service.Stats]
  · simpa using h2
  · simpa using h3
  · simpa using h4
  · simpa using h5
  · simpa using h6
